import Mathlib

/-!
Verification of the Account record manager (src/db/models/account.py).
The storage backend is modelled as a list of rows plus the next
auto-increment primary key; a scoped session commits the modified state on
success and rolls back (keeps the original state) on failure, so fallible
operations return `Except`.
-/

set_option maxHeartbeats 1000000

namespace DopBuddy

/-- Truthiness of an optional string field: Python treats both `None` and
the empty string as falsy, and the source only ever tests such fields for
truthiness, so both are modelled as the empty string. -/
def truthyS (s : String) : Bool := !(s == "")

/-- Truthiness of the integer `amount` field: Python treats `0` as falsy. -/
def truthyI (n : Int) : Bool := !(n == 0)

/-- Modelled from the spec: the module `enums` (not under `src/`) supplies
`AccountType`, the closed enumeration SINGLE / JOINT of section 3. -/
inductive AccountType where
| SINGLE
| JOINT
deriving DecidableEq

/-- Modelled from the spec: the dynamic enum coercion
`AccountType(self.account_type)` of sections 4 and 9; it yields the member
named by the string and fails (None here, a raised error at the call site)
on any string outside the enumeration. -/
def AccountType.ofString (s : String) : Option AccountType :=
  if s == "SINGLE" then some AccountType.SINGLE
  else if s == "JOINT" then some AccountType.JOINT
  else none

/-- Modelled from the spec: the comparison
`self.account_type == AccountType.JOINT` in `update`; per sections 3 and 4
it holds exactly when the new string value names the JOINT member. -/
def isJointString (s : String) : Bool := s == "JOINT"

/-- In-memory `Account` instance (src/db/models/account.py). String columns
model `None` as the empty string; `id` is `none` until storage assigns it. -/
structure Account where
  id : Option Nat
  account_number : String
  account_type : String
  depositor_1 : String
  depositor_2 : String
  amount : Int
  maturity_date : String
  agent : String
deriving DecidableEq

/-- One persisted row of the `accounts` table, carrying its
storage-assigned primary key. -/
structure StoredAccount where
  id : Nat
  account_number : String
  account_type : String
  depositor_1 : String
  depositor_2 : String
  amount : Int
  maturity_date : String
  agent : String
deriving DecidableEq

/-- The accounts table: the stored rows plus the next primary key the
storage backend will assign at flush. -/
structure Db where
  rows : List StoredAccount
  nextId : Nat
deriving DecidableEq

/-- Errors of section 7. The source raises `ValueError` at three distinct
sites, distinguished here by kind: the unknown id in `update`
(NotFoundError), a failed validation rule (ValidationError), and the
failed enum coercion `AccountType(self.account_type)`. -/
inductive DbError where
| notFound (msg : String)
| validation (msg : String)
| coercion (msg : String)
deriving DecidableEq

/-- String form of `self.id` inside the unknown-account-id message. -/
def optIdString : Option Nat → String
| none => "None"
| some n => toString n

/-- Rule 1 of `_is_valid`: the six required fields are all truthy. The
source loops over the list and returns the same message at the first falsy
field, which is equivalent to this conjunction. -/
def Account.requiredTruthy (a : Account) : Bool :=
  truthyS a.account_number && truthyS a.account_type && truthyS a.depositor_1 &&
    truthyI a.amount && truthyS a.maturity_date && truthyS a.agent

/-- `_is_valid_joint_account`: coerces `account_type` through `AccountType`
(which can raise), then requires `depositor_2` for JOINT accounts. -/
def Account.isValidJointAccount (a : Account) : Except DbError (Bool × String) :=
  match AccountType.ofString a.account_type with
  | none => Except.error (DbError.coercion (a.account_type ++ " is not a valid AccountType"))
  | some t =>
    if t == AccountType.JOINT then
      if !(truthyS a.depositor_2) then
        Except.ok (false, "Since account type is " ++ a.account_type ++ ", hence 2nd depositor is must")
      else Except.ok (true, "")
    else Except.ok (true, "")

/-- `_is_valid`: the required-fields rule, then the joint-account rule;
validation short-circuits at the first failing rule. -/
def Account.isValid (a : Account) : Except DbError (Bool × String) :=
  if a.requiredTruthy then a.isValidJointAccount
  else Except.ok (false, "Please make sure required fields are filled correctly!")

/-- The row `save` inserts for the instance once storage assigns id `i`. -/
def Account.toStored (a : Account) (i : Nat) : StoredAccount :=
  { id := i
    account_number := a.account_number
    account_type := a.account_type
    depositor_1 := a.depositor_1
    depositor_2 := a.depositor_2
    amount := a.amount
    maturity_date := a.maturity_date
    agent := a.agent }

/-- `save`: run `_is_valid`; on failure raise `ValueError` with the
message; on success insert the instance as a new row inside a scoped
session and return the id assigned at flush. An error leaves the stored
state untouched (the transaction never commits). -/
def Account.save (a : Account) (db : Db) : Except DbError (Nat × Db) :=
  match a.isValid with
  | Except.error e => Except.error e
  | Except.ok (true, _) =>
      Except.ok (db.nextId,
        { rows := db.rows ++ [a.toStored db.nextId], nextId := db.nextId + 1 })
  | Except.ok (false, msg) => Except.error (DbError.validation msg)

/-- The tail of `update` after the `account_type` block: the remaining four
sparse field overwrites, none of which can fail. -/
def Account.applyTail (a : Account) (r : StoredAccount) : StoredAccount :=
  let r3 := if truthyS a.depositor_1 then { r with depositor_1 := a.depositor_1 } else r
  let r4 := if truthyI a.amount then { r3 with amount := a.amount } else r3
  let r5 := if truthyS a.maturity_date then { r4 with maturity_date := a.maturity_date } else r4
  if truthyS a.agent then { r5 with agent := a.agent } else r5

/-- The body of `update` on the loaded row: the sparse overwrites in source
order, with the joint-account check inside the `account_type` block. The
draft row built before the check is discarded when the check raises. -/
def Account.applyUpdate (a : Account) (r0 : StoredAccount) : Except DbError StoredAccount :=
  let r1 := if truthyS a.account_number then { r0 with account_number := a.account_number } else r0
  if truthyS a.account_type then
    if isJointString a.account_type then
      if !(truthyS a.depositor_2) then
        Except.error (DbError.validation "Since account type is joint, hence 2nd depositor is must")
      else
        Except.ok (a.applyTail
          { r1 with account_type := a.account_type, depositor_2 := a.depositor_2 })
    else
      Except.ok (a.applyTail { r1 with account_type := a.account_type, depositor_2 := "" })
  else Except.ok (a.applyTail r1)

/-- Predicate matching `filter_by(id=self.id)`. -/
def Account.matchesId (a : Account) (r : StoredAccount) : Bool :=
  a.id == some r.id

/-- `update`: inside a scoped session load the first row matching the
instance id (raising the unknown-account-id `ValueError` when none
matches), apply the sparse overwrites, and commit the modified row in
place. Any failure rolls the transaction back, so the error branch carries
no new state. -/
def Account.update (a : Account) (db : Db) : Except DbError Db :=
  match db.rows.find? a.matchesId with
  | none => Except.error (DbError.notFound ("Unknown account id: " ++ optIdString a.id))
  | some row =>
    match a.applyUpdate row with
    | Except.error e => Except.error e
    | Except.ok row2 =>
        Except.ok { rows := db.rows.map (fun r => if r.id == row.id then row2 else r),
                    nextId := db.nextId }

/-- The stored state visible after a call to `update`: the committed state
on success, the rolled-back original on failure. -/
def Account.updatePost (a : Account) (db : Db) : Db :=
  match a.update db with
  | Except.ok db2 => db2
  | Except.error _ => db

/-- The stored state visible after a call to `save`. -/
def Account.savePost (a : Account) (db : Db) : Db :=
  match a.save db with
  | Except.ok (_, db2) => db2
  | Except.error _ => db

/-- The joint-account invariant of section 3 of the spec:
`depositor_2` populated iff `account_type == JOINT`. -/
def jointInvariant (r : StoredAccount) : Prop :=
  r.depositor_2 ≠ "" ↔ r.account_type = "JOINT"

instance (r : StoredAccount) : Decidable (jointInvariant r) := by
  unfold jointInvariant; infer_instance

/-! Sample values used by witnesses and counterexamples. -/

/-- An empty accounts table, first id to be assigned is 1. -/
def emptyDb : Db := { rows := [], nextId := 1 }

/-- A stored JOINT row with id 1. -/
def jointRow : StoredAccount :=
  { id := 1, account_number := "1000034567", account_type := "JOINT",
    depositor_1 := "Ram", depositor_2 := "Sita", amount := 2000,
    maturity_date := "20-02-2027", agent := "3197" }

/-- A table holding only `jointRow`. -/
def oneRowDb : Db := { rows := [jointRow], nextId := 2 }

/-- A fully-filled SINGLE instance that nevertheless carries a
`depositor_2` value. -/
def singleWithD2 : Account :=
  { id := none, account_number := "1000034567", account_type := "SINGLE",
    depositor_1 := "Ram", depositor_2 := "Sita", amount := 2000,
    maturity_date := "20-02-2027", agent := "3197" }

/-- A fully-filled valid SINGLE instance (no `depositor_2`). -/
def validSingle : Account :=
  { id := none, account_number := "2000034567", account_type := "SINGLE",
    depositor_1 := "Ram", depositor_2 := "", amount := 2000,
    maturity_date := "20-02-2027", agent := "3197" }

/-- A JOINT instance missing `depositor_2`, all six required fields set. -/
def jointMissing : Account :=
  { id := none, account_number := "3000034567", account_type := "JOINT",
    depositor_1 := "Ram", depositor_2 := "", amount := 50,
    maturity_date := "20-02-2027", agent := "3197" }

/-- Like `jointMissing` but aimed at stored row 1, with a fresh
`account_number` that `update` writes into the draft before the
joint-account check raises. -/
def jointHalf : Account :=
  { id := some 1, account_number := "9999934567", account_type := "JOINT",
    depositor_1 := "", depositor_2 := "", amount := 0,
    maturity_date := "", agent := "" }

/-- An update instance turning row 1 into a JOINT account with a new
second depositor. -/
def jointUpd : Account :=
  { id := some 1, account_number := "", account_type := "JOINT",
    depositor_1 := "", depositor_2 := "Lakshmi", amount := 0,
    maturity_date := "", agent := "" }

/-- An update instance turning row 1 into a SINGLE account while still
carrying a `depositor_2` value. -/
def singleDowngrade : Account :=
  { id := some 1, account_number := "", account_type := "SINGLE",
    depositor_1 := "", depositor_2 := "Sita", amount := 0,
    maturity_date := "", agent := "" }

/-- An update instance with only `amount` non-empty. -/
def amountOnly : Account :=
  { id := some 1, account_number := "", account_type := "",
    depositor_1 := "", depositor_2 := "", amount := 7777,
    maturity_date := "", agent := "" }

/-- An update instance with an empty `account_type` but a `depositor_2`
value on board. -/
def strayD2 : Account :=
  { id := some 1, account_number := "", account_type := "",
    depositor_1 := "", depositor_2 := "Gita", amount := 0,
    maturity_date := "", agent := "" }

/-- An instance whose id 9 matches no stored row. -/
def noRow : Account :=
  { id := some 9, account_number := "", account_type := "",
    depositor_1 := "", depositor_2 := "", amount := 0,
    maturity_date := "", agent := "" }

/-- A fully-filled instance whose `account_type` string is outside the
enumeration. -/
def badType : Account :=
  { id := none, account_number := "4000034567", account_type := "joint",
    depositor_1 := "Ram", depositor_2 := "Sita", amount := 50,
    maturity_date := "20-02-2027", agent := "3197" }

/-- A SINGLE instance with an empty `account_number`. -/
def missingNumber : Account :=
  { id := none, account_number := "", account_type := "SINGLE",
    depositor_1 := "Ram", depositor_2 := "", amount := 2000,
    maturity_date := "20-02-2027", agent := "3197" }

/-- A fully-filled valid JOINT instance. -/
def validJoint : Account := { singleWithD2 with account_type := "JOINT" }

/-- Row 1 after `jointUpd` rewrites its second depositor. -/
def c1UpdatedRow : StoredAccount := { jointRow with depositor_2 := "Lakshmi" }

/-- The table state after `jointUpd.update` commits. -/
def c1Db2 : Db := { rows := [c1UpdatedRow], nextId := 2 }

/-! Helper lemmas on the update body. -/

theorem applyTail_id (a : Account) (r : StoredAccount) :
    (a.applyTail r).id = r.id := by
  cases h1 : truthyS a.depositor_1 <;> cases h2 : truthyI a.amount <;>
    cases h3 : truthyS a.maturity_date <;> cases h4 : truthyS a.agent <;>
    simp [Account.applyTail, h1, h2, h3, h4]

theorem applyTail_account_type (a : Account) (r : StoredAccount) :
    (a.applyTail r).account_type = r.account_type := by
  cases h1 : truthyS a.depositor_1 <;> cases h2 : truthyI a.amount <;>
    cases h3 : truthyS a.maturity_date <;> cases h4 : truthyS a.agent <;>
    simp [Account.applyTail, h1, h2, h3, h4]

theorem applyTail_depositor_2 (a : Account) (r : StoredAccount) :
    (a.applyTail r).depositor_2 = r.depositor_2 := by
  cases h1 : truthyS a.depositor_1 <;> cases h2 : truthyI a.amount <;>
    cases h3 : truthyS a.maturity_date <;> cases h4 : truthyS a.agent <;>
    simp [Account.applyTail, h1, h2, h3, h4]

theorem update_ok_shape (a : Account) (db db2 : Db)
    (hok : a.update db = Except.ok db2) :
    ∃ row row2, db.rows.find? a.matchesId = some row ∧
      a.applyUpdate row = Except.ok row2 ∧
      db2.rows = db.rows.map (fun r => if r.id == row.id then row2 else r) ∧
      db2.nextId = db.nextId := by
  unfold Account.update at hok
  cases hfind : db.rows.find? a.matchesId with
  | none => rw [hfind] at hok; cases hok
  | some row =>
    rw [hfind] at hok
    dsimp only at hok
    cases happ : a.applyUpdate row with
    | error e => rw [happ] at hok; cases hok
    | ok row2 =>
      rw [happ] at hok
      dsimp only at hok
      refine ⟨row, row2, rfl, happ, ?_, ?_⟩ <;> cases hok <;> rfl

theorem applyUpdate_ok_fields (a : Account) (r row2 : StoredAccount)
    (h : a.applyUpdate r = Except.ok row2) :
    row2.id = r.id ∧
    row2.account_type =
      (if truthyS a.account_type then a.account_type else r.account_type) ∧
    row2.depositor_2 =
      (if truthyS a.account_type then
        (if isJointString a.account_type then a.depositor_2 else "")
       else r.depositor_2) ∧
    (truthyS a.account_type = true → isJointString a.account_type = true →
      truthyS a.depositor_2 = true) := by
  cases hn : truthyS a.account_number <;>
    cases ht : truthyS a.account_type <;>
      cases hj : isJointString a.account_type <;>
        cases hd : truthyS a.depositor_2 <;>
          simp only [Account.applyUpdate, hn, ht, hj, hd, Bool.not_true, Bool.not_false,
            Bool.false_eq_true, Bool.true_eq_false, if_true, if_false,
            ite_true, ite_false, Except.ok.injEq] at h <;>
          first
            | exact Except.noConfusion h
            | (subst h;
               refine ⟨?_, ?_, ?_, ?_⟩ <;>
                 simp [applyTail_id, applyTail_account_type, applyTail_depositor_2,
                   ht, hj, hd])

theorem applyUpdate_error_shape (a : Account) (r : StoredAccount) (e : DbError)
    (h : a.applyUpdate r = Except.error e) :
    truthyS a.account_type = true ∧ isJointString a.account_type = true ∧
      truthyS a.depositor_2 = false := by
  cases hn : truthyS a.account_number <;>
    cases ht : truthyS a.account_type <;>
      cases hj : isJointString a.account_type <;>
        cases hd : truthyS a.depositor_2 <;>
          simp only [Account.applyUpdate, hn, ht, hj, hd, Bool.not_true, Bool.not_false,
            Bool.false_eq_true, Bool.true_eq_false, if_true, if_false,
            ite_true, ite_false] at h <;>
          first
            | exact Except.noConfusion h
            | exact ⟨rfl, rfl, rfl⟩

theorem save_ok_joint_d2 (a : Account) (msg : String)
    (hj : a.account_type = "JOINT")
    (hv : a.isValid = Except.ok (true, msg)) :
    a.depositor_2 ≠ "" := by
  by_contra hd2n
  cases hreq : a.requiredTruthy with
  | false => simp [Account.isValid, hreq] at hv
  | true =>
    have hjv : a.isValidJointAccount = Except.ok (false,
        "Since account type is " ++ a.account_type ++ ", hence 2nd depositor is must") := by
      unfold Account.isValidJointAccount
      rw [hj, hd2n]
      rfl
    simp [Account.isValid, hreq, hjv] at hv

/-! Claim theorems. -/

/-- C3: an `update` whose id matches no stored row fails with
NotFoundError (the unknown-account-id `ValueError`) and leaves the stored
state unchanged — no row is modified or created. -/
theorem c3_update_unknown_id (a : Account) (db : Db)
    (h : db.rows.find? a.matchesId = none) :
    a.update db =
      Except.error (DbError.notFound ("Unknown account id: " ++ optIdString a.id)) ∧
    a.updatePost db = db := by
  have hu : a.update db =
      Except.error (DbError.notFound ("Unknown account id: " ++ optIdString a.id)) := by
    simp [Account.update, h]
  exact ⟨hu, by simp [Account.updatePost, hu]⟩

/-- Witness for C3: id 9 matches nothing in the one-row table. -/
theorem c3_update_unknown_id_witness :
    noRow.update oneRowDb =
      Except.error (DbError.notFound ("Unknown account id: " ++ optIdString noRow.id)) ∧
    noRow.updatePost oneRowDb = oneRowDb :=
  c3_update_unknown_id noRow oneRowDb rfl

/-- C4 counterexample: a save with an empty `account_number` does fail with
ValidationError, but the message it carries is the source string, which is
not the literal message "required fields missing." stated by the claim. -/
theorem c4_message_counterexample :
    missingNumber.save emptyDb =
      Except.error (DbError.validation "Please make sure required fields are filled correctly!") ∧
    "Please make sure required fields are filled correctly!" ≠ "required fields missing." :=
  ⟨rfl, by decide⟩

/-- C4 amended: whenever one of the six required fields is empty (amount 0
counts as missing under the truthiness check), `save` fails with
ValidationError carrying the message
"Please make sure required fields are filled correctly!" and no row is
inserted. -/
theorem c4_required_fields (a : Account) (db : Db)
    (h : a.account_number = "" ∨ a.account_type = "" ∨ a.depositor_1 = "" ∨
      a.amount = 0 ∨ a.maturity_date = "" ∨ a.agent = "") :
    a.save db =
      Except.error (DbError.validation "Please make sure required fields are filled correctly!") ∧
    a.savePost db = db := by
  have hreq : a.requiredTruthy = false := by
    rcases h with h | h | h | h | h | h <;>
      simp [Account.requiredTruthy, truthyS, truthyI, h]
  have hs : a.save db =
      Except.error (DbError.validation "Please make sure required fields are filled correctly!") := by
    simp [Account.save, Account.isValid, hreq]
  exact ⟨hs, by simp [Account.savePost, hs]⟩

/-- Witness for C4 amended: amount 0 on an otherwise filled instance. -/
theorem c4_required_fields_witness :
    ({ validSingle with amount := 0 } : Account).save emptyDb =
      Except.error (DbError.validation "Please make sure required fields are filled correctly!") ∧
    ({ validSingle with amount := 0 } : Account).savePost emptyDb = emptyDb :=
  c4_required_fields { validSingle with amount := 0 } emptyDb
    (Or.inr (Or.inr (Or.inr (Or.inl rfl))))

/-- C6: every failure inside `update` or `save` rolls the transaction back
wholly: the stored state after the call is exactly the state before it,
even when the draft row had already been partially overwritten inside the
session. -/
theorem c6_rollback_on_failure (a : Account) (db : Db) (e : DbError) :
    (a.update db = Except.error e → a.updatePost db = db) ∧
    (a.save db = Except.error e → a.savePost db = db) := by
  constructor
  · intro h; simp [Account.updatePost, h]
  · intro h; simp [Account.savePost, h]

/-- Witness for C6: `jointHalf.update` fails only after writing the fresh
`account_number` into the draft, yet the stored state is untouched; the
invalid-enum save fails and likewise changes nothing. -/
theorem c6_rollback_on_failure_witness :
    jointHalf.update oneRowDb =
      Except.error (DbError.validation "Since account type is joint, hence 2nd depositor is must") ∧
    jointHalf.updatePost oneRowDb = oneRowDb ∧
    badType.save emptyDb =
      Except.error (DbError.coercion "joint is not a valid AccountType") ∧
    badType.savePost emptyDb = emptyDb := by
  have h1 : jointHalf.update oneRowDb =
      Except.error (DbError.validation "Since account type is joint, hence 2nd depositor is must") := rfl
  have h2 : badType.save emptyDb =
      Except.error (DbError.coercion "joint is not a valid AccountType") := rfl
  exact ⟨h1, (c6_rollback_on_failure jointHalf oneRowDb _).1 h1,
         h2, (c6_rollback_on_failure badType emptyDb _).2 h2⟩

/-- C7: a valid SINGLE account (all six required fields non-empty,
`depositor_2` absent) saves successfully; the returned identifier is the
one storage assigns at flush, and it differs from the id of every
previously stored row. -/
theorem c7_save_valid_single (a : Account) (db : Db)
    (hwf : ∀ r ∈ db.rows, r.id < db.nextId)
    (hreq : a.requiredTruthy = true)
    (hsingle : a.account_type = "SINGLE")
    (hd2 : a.depositor_2 = "") :
    a.save db = Except.ok (db.nextId,
      { rows := db.rows ++ [a.toStored db.nextId], nextId := db.nextId + 1 }) ∧
    ∀ r ∈ db.rows, r.id ≠ db.nextId := by
  have hjoint : a.isValidJointAccount = Except.ok (true, "") := by
    simp [Account.isValidJointAccount, AccountType.ofString, hsingle]
  exact ⟨by simp [Account.save, Account.isValid, hreq, hjoint],
         fun r hr => Nat.ne_of_lt (hwf r hr)⟩

/-- Witness for C7: saving `validSingle` into the one-row table returns the
fresh id 2. -/
theorem c7_save_valid_single_witness :
    validSingle.save oneRowDb = Except.ok (oneRowDb.nextId,
      { rows := oneRowDb.rows ++ [validSingle.toStored oneRowDb.nextId],
        nextId := oneRowDb.nextId + 1 }) :=
  (c7_save_valid_single validSingle oneRowDb (by decide) (by decide) rfl rfl).1

/-- C10: when all six required fields are non-empty but the `account_type`
string names no member of the enumeration, `save` fails with the error of
the enum coercion `AccountType(self.account_type)` rather than with a
ValidationError of the two-rule validation set. -/
theorem c10_save_enum_coercion (a : Account) (db : Db)
    (hreq : a.requiredTruthy = true)
    (h1 : a.account_type ≠ "SINGLE") (h2 : a.account_type ≠ "JOINT") :
    a.save db =
      Except.error (DbError.coercion (a.account_type ++ " is not a valid AccountType")) ∧
    ∀ msg, a.save db ≠ Except.error (DbError.validation msg) := by
  have hof : AccountType.ofString a.account_type = none := by
    simp [AccountType.ofString, h1, h2]
  have hs : a.save db =
      Except.error (DbError.coercion (a.account_type ++ " is not a valid AccountType")) := by
    simp [Account.save, Account.isValid, hreq, Account.isValidJointAccount, hof]
  refine ⟨hs, fun msg hmsg => ?_⟩
  rw [hs] at hmsg
  simp at hmsg

/-- Witness for C10: `account_type` "joint" (lower case) is outside the
enumeration, so the coercion error surfaces. -/
theorem c10_save_enum_coercion_witness :
    badType.save emptyDb =
      Except.error (DbError.coercion (badType.account_type ++ " is not a valid AccountType")) :=
  (c10_save_enum_coercion badType emptyDb (by decide) (by decide) (by decide)).1

/-- C8: an update of an existing record whose instance has only `amount`
non-empty commits the loaded row with just its `amount` replaced by the
instance value; `account_number`, `account_type`, `depositor_1`,
`depositor_2`, `maturity_date`, `agent` and the id of the row — and every
other row — stay exactly as stored. -/
theorem c8_partial_update_amount (a : Account) (db : Db) (row : StoredAccount)
    (hfind : db.rows.find? a.matchesId = some row)
    (h1 : a.account_number = "") (h2 : a.account_type = "")
    (h3 : a.depositor_1 = "") (h5 : a.maturity_date = "") (h6 : a.agent = "")
    (h4 : a.amount ≠ 0) :
    a.update db = Except.ok
      { rows := db.rows.map (fun r =>
          if r.id == row.id then { row with amount := a.amount } else r),
        nextId := db.nextId } := by
  have happ : a.applyUpdate row = Except.ok { row with amount := a.amount } := by
    simp [Account.applyUpdate, Account.applyTail, truthyS, truthyI,
      h1, h2, h3, h5, h6, h4]
  simp [Account.update, hfind, happ]

/-- Witness for C8: updating only the amount of the stored joint row. -/
theorem c8_partial_update_amount_witness :
    amountOnly.update oneRowDb = Except.ok
      { rows := oneRowDb.rows.map (fun r =>
          if r.id == jointRow.id then { jointRow with amount := amountOnly.amount } else r),
        nextId := oneRowDb.nextId } :=
  c8_partial_update_amount amountOnly oneRowDb jointRow rfl rfl rfl rfl rfl rfl
    (by decide)

/-- C9: `depositor_2` is only ever written inside the branch guarded by a
non-empty instance `account_type`, so an update whose instance
`account_type` is empty leaves every stored row's `depositor_2` (keyed by
row id) unchanged, whatever `depositor_2` the instance carries. -/
theorem c9_empty_type_preserves_depositor_2 (a : Account) (db db2 : Db)
    (hnd : (db.rows.map StoredAccount.id).Nodup)
    (h : a.account_type = "")
    (hok : a.update db = Except.ok db2) :
    db2.rows.map (fun r => (r.id, r.depositor_2)) =
      db.rows.map (fun r => (r.id, r.depositor_2)) := by
  obtain ⟨row, row2, hfind, happ, hrows, -⟩ := update_ok_shape a db db2 hok
  obtain ⟨hid, -, hd2, -⟩ := applyUpdate_ok_fields a row row2 happ
  have htF : truthyS a.account_type = false := by simp [truthyS, h]
  rw [htF] at hd2
  simp only [Bool.false_eq_true, if_false, ite_false] at hd2
  have hrowmem : row ∈ db.rows := List.mem_of_find?_eq_some hfind
  rw [hrows, List.map_map]
  refine List.map_congr_left (fun r hr => ?_)
  by_cases hb : (r.id == row.id) = true
  · have hide : r.id = row.id := by simpa using hb
    have hre : r = row :=
      List.inj_on_of_nodup_map hnd hr hrowmem hide
    simp [Function.comp, hb, hid, hd2, hre]
  · simp [Function.comp, hb]

/-- Witness for C9: an update carrying a stray `depositor_2` but no
`account_type` leaves the stored second depositor in place. -/
theorem c9_empty_type_preserves_depositor_2_witness :
    ((strayD2.updatePost oneRowDb).rows.map (fun r => (r.id, r.depositor_2))) =
      (oneRowDb.rows.map (fun r => (r.id, r.depositor_2))) :=
  c9_empty_type_preserves_depositor_2 strayD2 oneRowDb (strayD2.updatePost oneRowDb)
    (by decide) rfl rfl

/-- C5: an update of an existing record whose instance `account_type` is
non-empty and not JOINT always succeeds in the `account_type` block and
clears the stored `depositor_2` of the target row, whatever `depositor_2`
the instance carries. -/
theorem c5_nonjoint_update_clears_d2 (a : Account) (db : Db) (row : StoredAccount)
    (hfind : db.rows.find? a.matchesId = some row)
    (ht : a.account_type ≠ "") (hnj : a.account_type ≠ "JOINT") :
    (∃ db2, a.update db = Except.ok db2) ∧
    ∀ db2, a.update db = Except.ok db2 →
      ∀ r ∈ db2.rows, r.id = row.id → r.depositor_2 = "" := by
  have htT : truthyS a.account_type = true := by simp [truthyS, ht]
  have hjF : isJointString a.account_type = false := by simp [isJointString, hnj]
  constructor
  · cases happ : a.applyUpdate row with
    | error e =>
      obtain ⟨-, hjT, -⟩ := applyUpdate_error_shape a row e happ
      rw [hjF] at hjT; cases hjT
    | ok row2 =>
      refine ⟨{ rows := db.rows.map (fun r => if r.id == row.id then row2 else r),
                nextId := db.nextId }, ?_⟩
      unfold Account.update
      rw [hfind]
      dsimp only
      rw [happ]
  · intro db2 hok r hr hide
    obtain ⟨row', row2, hfind', happ, hrows, -⟩ := update_ok_shape a db db2 hok
    have hrr : row' = row := Option.some.inj (hfind'.symm.trans hfind)
    rw [hrr] at happ hrows
    obtain ⟨hid, -, hd2, -⟩ := applyUpdate_ok_fields a row row2 happ
    rw [htT, hjF] at hd2
    simp only [if_true, Bool.false_eq_true, if_false, ite_true, ite_false] at hd2
    rw [hrows] at hr
    obtain ⟨x, hx, hfx⟩ := List.mem_map.1 hr
    by_cases hb : (x.id == row.id) = true
    · rw [if_pos hb] at hfx
      rw [← hfx]
      exact hd2
    · rw [if_neg hb] at hfx
      rw [← hfx] at hide
      exact absurd (by simpa using hide) (by simpa using hb)

/-- C2: a JOINT account with empty `depositor_2` (six required fields
filled) fails `save` with the joint-rule ValidationError; an update of an
existing row whose instance `account_type` equals JOINT with empty
instance `depositor_2` fails with the joint-rule ValidationError; and when
such an update carries a non-empty `depositor_2`, the committed target row
takes its `depositor_2` from the instance. -/
theorem c2_joint_requires_d2 (a : Account) (db : Db) (row : StoredAccount) :
    (a.requiredTruthy = true → a.account_type = "JOINT" → a.depositor_2 = "" →
      a.save db = Except.error (DbError.validation
        ("Since account type is " ++ a.account_type ++ ", hence 2nd depositor is must"))) ∧
    (db.rows.find? a.matchesId = some row → a.account_type = "JOINT" → a.depositor_2 = "" →
      a.update db = Except.error (DbError.validation
        "Since account type is joint, hence 2nd depositor is must")) ∧
    (db.rows.find? a.matchesId = some row → a.account_type = "JOINT" → a.depositor_2 ≠ "" →
      ∀ db2, a.update db = Except.ok db2 →
        ∀ r ∈ db2.rows, r.id = row.id → r.depositor_2 = a.depositor_2) := by
  refine ⟨?_, ?_, ?_⟩
  · intro hreq hj hd2
    have hjv : a.isValidJointAccount = Except.ok (false,
        "Since account type is " ++ a.account_type ++ ", hence 2nd depositor is must") := by
      unfold Account.isValidJointAccount
      rw [hj, hd2]
      rfl
    simp [Account.save, Account.isValid, hreq, hjv]
  · intro hfind hj hd2
    have htT : truthyS a.account_type = true := by simp [truthyS, hj]
    have hjT : isJointString a.account_type = true := by simp [isJointString, hj]
    have hdF : truthyS a.depositor_2 = false := by simp [truthyS, hd2]
    have happ : a.applyUpdate row = Except.error (DbError.validation
        "Since account type is joint, hence 2nd depositor is must") := by
      simp [Account.applyUpdate, htT, hjT, hdF]
    simp [Account.update, hfind, happ]
  · intro hfind hj hd2 db2 hok r hr hide
    obtain ⟨row', row2, hfind', happ, hrows, -⟩ := update_ok_shape a db db2 hok
    have hrr : row' = row := Option.some.inj (hfind'.symm.trans hfind)
    rw [hrr] at happ hrows
    have htT : truthyS a.account_type = true := by simp [truthyS, hj]
    have hjT : isJointString a.account_type = true := by simp [isJointString, hj]
    obtain ⟨hid, -, hd2e, -⟩ := applyUpdate_ok_fields a row row2 happ
    rw [htT, hjT] at hd2e
    simp only [if_true, ite_true] at hd2e
    rw [hrows] at hr
    obtain ⟨x, hx, hfx⟩ := List.mem_map.1 hr
    by_cases hb : (x.id == row.id) = true
    · rw [if_pos hb] at hfx
      rw [← hfx]
      exact hd2e
    · rw [if_neg hb] at hfx
      rw [← hfx] at hide
      exact absurd (by simpa using hide) (by simpa using hb)

/-- Witness for C2: the three parts at the sample table — failed JOINT
save, failed update-to-JOINT without a second depositor, and a committed
update-to-JOINT taking "Lakshmi" from the instance. -/
theorem c2_joint_requires_d2_witness :
    jointMissing.save emptyDb = Except.error (DbError.validation
      ("Since account type is " ++ jointMissing.account_type ++ ", hence 2nd depositor is must")) ∧
    jointHalf.update oneRowDb = Except.error (DbError.validation
      "Since account type is joint, hence 2nd depositor is must") ∧
    c1UpdatedRow.depositor_2 = jointUpd.depositor_2 := by
  refine ⟨?_, ?_, ?_⟩
  · exact (c2_joint_requires_d2 jointMissing emptyDb jointRow).1 (by decide) rfl rfl
  · exact (c2_joint_requires_d2 jointHalf oneRowDb jointRow).2.1 rfl rfl rfl
  · exact (c2_joint_requires_d2 jointUpd oneRowDb jointRow).2.2 rfl rfl (by decide)
      c1Db2 rfl c1UpdatedRow (by decide) rfl

/-- C1 counterexample: the claimed invariant
"`depositor_2` populated ⇔ `account_type == JOINT`" fails for saved rows:
a fully-filled SINGLE account carrying a `depositor_2` value passes
validation, saves successfully, and the stored row has a non-JOINT
`account_type` with a non-empty `depositor_2`. -/
theorem c1_invariant_counterexample :
    singleWithD2.save emptyDb =
      Except.ok (1, { rows := [singleWithD2.toStored 1], nextId := 2 }) ∧
    (singleWithD2.toStored 1).account_type ≠ "JOINT" ∧
    (singleWithD2.toStored 1).depositor_2 ≠ "" ∧
    ¬ jointInvariant (singleWithD2.toStored 1) :=
  ⟨rfl, by decide, by decide, by decide⟩

/-- C1 amended: the invariant holds in the JOINT direction only. A
successful save of a JOINT account stores a row satisfying
`depositor_2` populated ⇔ `account_type == JOINT`, and a successful update
whose instance `account_type` is non-empty leaves every stored row either
untouched or satisfying that biconditional; but a save of a non-JOINT
account is free to store a non-empty `depositor_2` (see the
counterexample), so the converse direction is not enforced on save. -/
theorem c1_invariant_amended (a : Account) (db : Db) :
    (∀ i db2, a.save db = Except.ok (i, db2) → a.account_type = "JOINT" →
      ∀ r ∈ db2.rows, r ∈ db.rows ∨ jointInvariant r) ∧
    (∀ db2, a.update db = Except.ok db2 → a.account_type ≠ "" →
      ∀ r ∈ db2.rows, r ∈ db.rows ∨ jointInvariant r) := by
  constructor
  · intro i db2 hok hj r hr
    unfold Account.save at hok
    cases hv : a.isValid with
    | error e => rw [hv] at hok; cases hok
    | ok p =>
      obtain ⟨b, msg⟩ := p
      rw [hv] at hok
      cases b
      · dsimp only at hok
        cases hok
      · dsimp only at hok
        simp only [Except.ok.injEq, Prod.mk.injEq] at hok
        obtain ⟨hi, hdb⟩ := hok
        subst hdb
        rcases List.mem_append.1 hr with hmem | hmem
        · exact Or.inl hmem
        · right
          have hre : r = a.toStored db.nextId := by simpa using hmem
          have hdne : a.depositor_2 ≠ "" := save_ok_joint_d2 a msg hj hv
          subst hre
          simp [jointInvariant, Account.toStored, hj, hdne]
  · intro db2 hok ht r hr
    obtain ⟨row, row2, hfind, happ, hrows, -⟩ := update_ok_shape a db db2 hok
    obtain ⟨hid, hat, hd2, himp⟩ := applyUpdate_ok_fields a row row2 happ
    have htT : truthyS a.account_type = true := by simp [truthyS, ht]
    rw [htT] at hat hd2
    simp only [if_true, ite_true] at hat hd2
    rw [hrows] at hr
    obtain ⟨x, hx, hfx⟩ := List.mem_map.1 hr
    by_cases hb : (x.id == row.id) = true
    · rw [if_pos hb] at hfx
      subst hfx
      right
      cases hj : isJointString a.account_type with
      | false =>
        rw [hj] at hd2
        simp only [Bool.false_eq_true, if_false, ite_false] at hd2
        have hnj : a.account_type ≠ "JOINT" := by
          simpa [isJointString] using hj
        simp [jointInvariant, hd2, hat, hnj]
      | true =>
        rw [hj] at hd2
        simp only [if_true, ite_true] at hd2
        have hdT := himp htT hj
        have hdne : a.depositor_2 ≠ "" := by simpa [truthyS] using hdT
        have hjs : a.account_type = "JOINT" := by simpa [isJointString] using hj
        simp [jointInvariant, hd2, hat, hjs, hdne]
    · rw [if_neg hb] at hfx
      subst hfx
      exact Or.inl hx

/-- Witness for C1 amended: the saved JOINT row and the row committed by
the update-to-JOINT both land in the invariant disjunct. -/
theorem c1_invariant_amended_witness :
    (validJoint.toStored 1 ∈ emptyDb.rows ∨ jointInvariant (validJoint.toStored 1)) ∧
    (c1UpdatedRow ∈ oneRowDb.rows ∨ jointInvariant c1UpdatedRow) :=
  ⟨(c1_invariant_amended validJoint emptyDb).1 1
      { rows := [validJoint.toStored 1], nextId := 2 } rfl rfl
      (validJoint.toStored 1) (by decide),
   (c1_invariant_amended jointUpd oneRowDb).2 c1Db2 rfl (by decide)
      c1UpdatedRow (by decide)⟩

/-- Witness for C5: downgrading the stored JOINT row to SINGLE clears its
second depositor although the instance still carries "Sita". -/
theorem c5_nonjoint_update_clears_d2_witness :
    singleDowngrade.depositor_2 = "Sita" ∧
    ({ jointRow with account_type := "SINGLE", depositor_2 := "" } : StoredAccount).depositor_2 = "" := by
  refine ⟨rfl, ?_⟩
  exact (c5_nonjoint_update_clears_d2 singleDowngrade oneRowDb jointRow rfl
      (by decide) (by decide)).2 (singleDowngrade.updatePost oneRowDb) rfl
    { jointRow with account_type := "SINGLE", depositor_2 := "" } (by decide) rfl

end DopBuddy
